import Mathlib

/-!
Verification of the gristmill engine core: a shallow embedding of the ECS
(`src/ecs.rs`, `src/ecs/ordering.rs`, `src/ecs/partial_manager.rs`) and of the
generic GPU buffer manager (`src/engine/vulkan/buffer_manager.rs`).

Conventions of the embedding:
* Rust `TypeId` keys, event kinds and buffer names become `Nat`; the maps
  (`HashMap`) become association lists with key-based lookup, which models the
  `get` / `entry` / `and_modify` / `or_insert` operations used by the source.
* Stored values stay generic in a type parameter so the theorems quantify over
  the stored type, as the source is generic over `T : Any`.
* User-supplied system and event-handler callbacks are opaque to the code under
  verification; they are modelled by their observable outcome
  (an `Except String Unit`) plus a numeric identity used to trace invocations.
* The Vulkan device is modelled by a call trace (`DeviceState`); each
  `create_buffer`/`allocate_memory` pair of an allocation is one `createBuffer`
  event yielding a fresh handle, each `destroy_buffer`/`free_memory` pair one
  `destroyBuffer` event, and the copy paths record `mapMemory` / `unmapMemory`
  / `copyBuffer` events.
-/

namespace Gristmill

/-- Key-based lookup in an association list; models `HashMap::get`. -/
def alistLookup {α : Type} : List (Nat × α) → Nat → Option α
  | [], _ => none
  | (k, v) :: rest, t => if k = t then some v else alistLookup rest t

/-- Replace the value stored under a present key; models the in-place
mutation performed by `HashMap::entry(..).and_modify(..)`. -/
def alistUpdate {α : Type} : List (Nat × α) → Nat → α → List (Nat × α)
  | [], _, _ => []
  | (k, v) :: rest, t, w => if k = t then (k, w) :: rest else (k, v) :: alistUpdate rest t w

/-- Outcome of a store lookup as seen by the caller.  `notFound` is an
observable error value (the `None` of `try_get_resource`); `panicked` is the
`unwrap()` of a failed lookup, which never returns to the caller. -/
inductive ECSResult (α : Type) where
  | ok (value : α)
  | notFound
  | panicked
  deriving DecidableEq, Repr

/-- `World` from `src/ecs.rs`: type-erased resource and component stores plus
the event queue (`new_events`).  Lock-wrapping is dropped: the engine is
single-threaded and every lock acquisition in the source is an `unwrap`. -/
structure World (α : Type) where
  resources : List (Nat × α)
  components : List (Nat × List α)
  new_events : List (Nat × Nat)

/-- `World::new`. -/
def World.new {α : Type} : World α := ⟨[], [], []⟩

/-- `World::add_resource`: `entry(TypeId::of::<T>()).or_insert(..)` — a second
registration for an already-present key is a no-op. -/
def World.add_resource {α : Type} (w : World α) (t : Nat) (v : α) : World α :=
  match alistLookup w.resources t with
  | some _ => w
  | none => { w with resources := w.resources ++ [(t, v)] }

/-- `World::try_get_resource`: returns `None` when the key is absent. -/
def World.try_get_resource {α : Type} (w : World α) (t : Nat) : ECSResult α :=
  match alistLookup w.resources t with
  | some v => ECSResult.ok v
  | none => ECSResult.notFound

/-- `World::get_resource`: `try_get_resource::<T>().unwrap()`. -/
def World.get_resource {α : Type} (w : World α) (t : Nat) : ECSResult α :=
  match w.try_get_resource t with
  | ECSResult.ok v => ECSResult.ok v
  | _ => ECSResult.panicked

/-- `World::try_get_resource_mut`: same lookup path through the write lock. -/
def World.try_get_resource_mut {α : Type} (w : World α) (t : Nat) : ECSResult α :=
  match alistLookup w.resources t with
  | some v => ECSResult.ok v
  | none => ECSResult.notFound

/-- `World::get_resource_mut`: `try_get_resource_mut::<T>().unwrap()`. -/
def World.get_resource_mut {α : Type} (w : World α) (t : Nat) : ECSResult α :=
  match w.try_get_resource_mut t with
  | ECSResult.ok v => ECSResult.ok v
  | _ => ECSResult.panicked

/-- `World::add_component`: appends to the existing list for the key, or
inserts a one-element list. -/
def World.add_component {α : Type} (w : World α) (t : Nat) (v : α) : World α :=
  match alistLookup w.components t with
  | some l => { w with components := alistUpdate w.components t (l ++ [v]) }
  | none => { w with components := w.components ++ [(t, [v])] }

/-- `World::get_components`: `self.components.get(&TypeId::of::<T>()).unwrap()`
— an absent key is a panic, there is no `try` variant. -/
def World.get_components {α : Type} (w : World α) (t : Nat) : ECSResult (List α) :=
  match alistLookup w.components t with
  | some l => ECSResult.ok l
  | none => ECSResult.panicked

/-- `World::get_components_mut`: same `unwrap()` on the lookup. -/
def World.get_components_mut {α : Type} (w : World α) (t : Nat) : ECSResult (List α) :=
  match alistLookup w.components t with
  | some l => ECSResult.ok l
  | none => ECSResult.panicked

/-- `World::raise_event`: pushes a (kind, payload) pair onto the queue. -/
def World.raise_event {α : Type} (w : World α) (kind data : Nat) : World α :=
  { w with new_events := w.new_events ++ [(kind, data)] }

/-- `SystemOrder<T>` from `src/ecs/ordering.rs`: a plain ordered list. -/
structure SystemOrder (T : Type) where
  order : List T

/-- `SystemOrder::new`. -/
def SystemOrder.new {T : Type} (s : T) : SystemOrder T := ⟨[s]⟩

/-- `SystemOrder::empty`. -/
def SystemOrder.empty {T : Type} : SystemOrder T := ⟨[]⟩

/-- `SystemOrder::extend` / `extend_mut_ref`: list concatenation. -/
def SystemOrder.extend {T : Type} (a b : SystemOrder T) : SystemOrder T :=
  ⟨a.order ++ b.order⟩

/-- `Ordering::after` for `SystemOrder`: pushes onto the end and returns the
updated order (the source mutates through `&mut self` and returns a clone; the
value-level effect is appending one element). -/
def SystemOrder.after {T : Type} (so : SystemOrder T) (s : T) : SystemOrder T :=
  ⟨so.order ++ [s]⟩

/-- A user system (`fn(&World) -> Result<()>`), modelled by its observable
outcome for the frame under consideration plus an identity for tracing. -/
structure SystemModel where
  id : Nat
  result : Except String Unit

/-- An event handler (`fn(&World, LemgineEventData) -> Result<()>`), modelled
by its outcome as a function of the payload plus an identity for tracing. -/
structure EventHandler where
  id : Nat
  run : Nat → Except String Unit

/-- The system-execution loop of `Manager::run`
(`for system in order.iter() { system(&self.world)? }`): runs each system in
list order, stopping at the first error; returns the invocation trace and the
final outcome. -/
def run_systems : List SystemModel → List Nat × Except String Unit
  | [] => ([], Except.ok ())
  | s :: rest =>
    match s.result with
    | Except.ok _ =>
      let r := run_systems rest
      (s.id :: r.1, r.2)
    | Except.error e => ([s.id], Except.error e)

/-- The handler loop of `Manager::raise_event`: each handler is invoked with
the payload, in order; `Err` returns immediately. -/
def run_handlers (data : Nat) : List EventHandler → List Nat × Except String Unit
  | [] => ([], Except.ok ())
  | h :: rest =>
    match h.run data with
    | Except.ok _ =>
      let r := run_handlers data rest
      (h.id :: r.1, r.2)
    | Except.error e => ([h.id], Except.error e)

/-- `Manager` from `src/ecs.rs`. -/
structure Manager (α : Type) where
  world : World α
  startup_systems : SystemOrder SystemModel
  systems : SystemOrder SystemModel
  winit_event_systems : SystemOrder SystemModel
  event_systems : List (Nat × SystemOrder EventHandler)

/-- `Manager::new`. -/
def Manager.new {α : Type} : Manager α :=
  ⟨World.new, SystemOrder.empty, SystemOrder.empty, SystemOrder.empty, []⟩

/-- `Manager::raise_event`: looks up the handler order for the kind (no
handlers registered is a no-op) and runs the handlers in order, failing fast. -/
def Manager.raise_event {α : Type} (m : Manager α) (event data : Nat) :
    List Nat × Except String Unit :=
  match alistLookup m.event_systems event with
  | none => ([], Except.ok ())
  | some so => run_handlers data so.order

/-- The dispatch loop inside `Manager::check_events`
(`for (event, data) in events.clone() { self.raise_event(event, data)? }`). -/
def dispatch_events {α : Type} (m : Manager α) :
    List (Nat × Nat) → List Nat × Except String Unit
  | [] => ([], Except.ok ())
  | (ev, d) :: rest =>
    let r := m.raise_event ev d
    match r.2 with
    | Except.error e => (r.1, Except.error e)
    | Except.ok _ =>
      let r2 := dispatch_events m rest
      (r.1 ++ r2.1, r2.2)

/-- `Manager::check_events`: fast path when the queue is empty; otherwise
dispatch every queued event and clear the queue, except that an error
propagates immediately (the `clear` is never reached). -/
def Manager.check_events {α : Type} (m : Manager α) :
    List Nat × Except String (Manager α) :=
  if m.world.new_events.isEmpty then ([], Except.ok m)
  else
    let r := dispatch_events m m.world.new_events
    match r.2 with
    | Except.error e => (r.1, Except.error e)
    | Except.ok _ =>
      (r.1, Except.ok { m with world := { m.world with new_events := [] } })

/-- `PartialManager` from `src/ecs/partial_manager.rs`. -/
structure PartialManager (α : Type) where
  resources : List (Nat × α)
  components : List (Nat × List α)
  startup_systems : SystemOrder SystemModel
  systems : SystemOrder SystemModel
  winit_event_systems : SystemOrder SystemModel
  event_systems : List (Nat × SystemOrder EventHandler)

/-- The resource loop of `Manager::integrate`: for each partial resource, a
key already present in the target is a hard error, otherwise it is inserted. -/
def integrate_resources {α : Type} :
    List (Nat × α) → List (Nat × α) → Except String (List (Nat × α))
  | target, [] => Except.ok target
  | target, (t, v) :: rest =>
    match alistLookup target t with
    | some _ => Except.error "Resource from PartialManager world exists in world already."
    | none => integrate_resources (target ++ [(t, v)]) rest

/-- The component loop of `Manager::integrate`: per key, the partial list is
concatenated onto the end of the existing list (`extend_from_slice`), or
inserted when the key is absent. -/
def merge_components {α : Type} :
    List (Nat × List α) → List (Nat × List α) → List (Nat × List α)
  | target, [] => target
  | target, (t, vs) :: rest =>
    match alistLookup target t with
    | some l => merge_components (alistUpdate target t (l ++ vs)) rest
    | none => merge_components (target ++ [(t, vs)]) rest

/-- The event-system loop of `Manager::integrate`: per kind, extend the
existing handler order or insert the new one. -/
def merge_event_systems :
    List (Nat × SystemOrder EventHandler) → List (Nat × SystemOrder EventHandler) →
    List (Nat × SystemOrder EventHandler)
  | target, [] => target
  | target, (ev, so) :: rest =>
    match alistLookup target ev with
    | some old => merge_event_systems (alistUpdate target ev (old.extend so)) rest
    | none => merge_event_systems (target ++ [(ev, so)]) rest

/-- `Manager::integrate`: extends `systems` and `winit_event_systems`, merges
`event_systems`, then the resource loop (which can fail) and the component
loop.  The startup systems of the partial are never read. -/
def Manager.integrate {α : Type} (m : Manager α) (p : PartialManager α) :
    Except String (Manager α) :=
  let systems := m.systems.extend p.systems
  let winit := m.winit_event_systems.extend p.winit_event_systems
  let events := merge_event_systems m.event_systems p.event_systems
  match integrate_resources m.world.resources p.resources with
  | Except.error e => Except.error e
  | Except.ok res =>
    Except.ok
      { world :=
          { m.world with
            resources := res
            components := merge_components m.world.components p.components }
        startup_systems := m.startup_systems
        systems := systems
        winit_event_systems := winit
        event_systems := events }

/-- One primitive call at the graphics-device boundary.  An allocation
(`create_buffer` + `allocate_memory` + `bind_buffer_memory` of a
`BufferPair`) is one `createBuffer` event producing the handle; a
`BufferPair::free` (`destroy_buffer` + `free_memory`) is one `destroyBuffer`
event on the handle. -/
inductive DeviceCall where
  | createBuffer (handle : Nat)
  | destroyBuffer (handle : Nat)
  | mapMemory (handle : Nat)
  | unmapMemory (handle : Nat)
  | copyBuffer (src : Nat) (dst : Nat)
  deriving DecidableEq, Repr

/-- The mock device: a fresh-handle counter and the trace of calls. -/
structure DeviceState where
  next_handle : Nat
  trace : List DeviceCall

/-- A device with no calls made yet. -/
def DeviceState.fresh : DeviceState := ⟨0, []⟩

/-- Allocate a new buffer pair: one create call, yielding a fresh handle. -/
def DeviceState.create_buffer (d : DeviceState) : Nat × DeviceState :=
  (d.next_handle, ⟨d.next_handle + 1, d.trace ++ [DeviceCall.createBuffer d.next_handle]⟩)

/-- `BufferPair::free`: one destroy call on the handle. -/
def DeviceState.destroy_buffer (d : DeviceState) (h : Nat) : DeviceState :=
  { d with trace := d.trace ++ [DeviceCall.destroyBuffer h] }

/-- Number of buffer-creation calls in the trace. -/
def DeviceState.create_count (d : DeviceState) : Nat :=
  d.trace.countP fun c =>
    match c with
    | DeviceCall.createBuffer _ => true
    | _ => false

/-- Number of buffer-destruction calls in the trace. -/
def DeviceState.destroy_count (d : DeviceState) : Nat :=
  d.trace.countP fun c =>
    match c with
    | DeviceCall.destroyBuffer _ => true
    | _ => false

/-- `AllocateBufferType` from `src/engine/vulkan/buffer_manager.rs`; the
generic Standard and Uniform name types are instantiated with `Nat`. -/
inductive AllocateBufferType where
  | Temp
  | Standard (name : Nat)
  | Uniform (name : Nat)
  deriving DecidableEq, Repr

/-- `BufferManagerDataType` (the copy source), minus the opaque queue and
command-pool handles that are merely forwarded to the device. -/
inductive BufferManagerDataType where
  | Data (values : List Nat)
  | TempBuffer
  | StandardBuffer (name : Nat)
  | UniformBuffers (name : Nat) (index : Nat)
  deriving DecidableEq, Repr

/-- `BufferManagerCopyType` (the copy destination). -/
inductive BufferManagerCopyType where
  | TempBuffer
  | StandardBuffer (name : Nat)
  | UniformBuffers (name : Nat) (index : Nat)
  deriving DecidableEq, Repr

/-- The `PartialEq<BufferManagerCopyType> for BufferManagerDataType` impl:
`matches!` on the variant pair only — names and indices are never compared. -/
def data_eq_copy_type : BufferManagerDataType → BufferManagerCopyType → Bool
  | BufferManagerDataType.TempBuffer, BufferManagerCopyType.TempBuffer => true
  | BufferManagerDataType.StandardBuffer _, BufferManagerCopyType.StandardBuffer _ => true
  | BufferManagerDataType.UniformBuffers _ _, BufferManagerCopyType.UniformBuffers _ _ => true
  | _, _ => false

/-- `BufferManager` state: the singleton temp slot, the Standard name map and
the Uniform name map (each buffer is its device handle). -/
structure BufferManager where
  temp_buffer : Option Nat
  buffers : List (Nat × Nat)
  uniform_buffers : List (Nat × List Nat)

/-- A buffer manager with nothing allocated. -/
def BufferManager.new : BufferManager := ⟨none, [], []⟩

/-- `BufferManager::free_temp_buffer`: a no-op when no temp buffer exists,
otherwise frees it and clears the slot. -/
def BufferManager.free_temp_buffer (bm : BufferManager) (d : DeviceState) :
    BufferManager × DeviceState :=
  match bm.temp_buffer with
  | none => (bm, d)
  | some h => ({ bm with temp_buffer := none }, d.destroy_buffer h)

/-- `BufferManager::allocate_buffer_with_size`: allocates the new pair first,
then for `Temp` frees any existing temp buffer before storing, for `Standard`
frees the buffer already under the name (`and_modify`) before replacing it,
and for `Uniform` appends to the list under the name.  The `size` is consumed
by the allocator and does not affect the tracked lifecycle state. -/
def BufferManager.allocate_buffer_with_size (bm : BufferManager) (d : DeviceState)
    (buffer_type : AllocateBufferType) (size : Nat) : BufferManager × DeviceState :=
  let hd := d.create_buffer
  match buffer_type with
  | AllocateBufferType.Temp =>
    let r := bm.free_temp_buffer hd.2
    ({ r.1 with temp_buffer := some hd.1 }, r.2)
  | AllocateBufferType.Standard name =>
    match alistLookup bm.buffers name with
    | some old =>
      ({ bm with buffers := alistUpdate bm.buffers name hd.1 }, hd.2.destroy_buffer old)
    | none => ({ bm with buffers := bm.buffers ++ [(name, hd.1)] }, hd.2)
  | AllocateBufferType.Uniform name =>
    match alistLookup bm.uniform_buffers name with
    | some l =>
      ({ bm with uniform_buffers := alistUpdate bm.uniform_buffers name (l ++ [hd.1]) }, hd.2)
    | none => ({ bm with uniform_buffers := bm.uniform_buffers ++ [(name, [hd.1])] }, hd.2)

/-- `BufferManager::free_standard_buffer`:
`self.buffers.entry(name).and_modify(|b| b.free(&device))` — the buffer is
freed on the device but the map entry is left in place, still holding the
now-stale handle. -/
def BufferManager.free_standard_buffer (bm : BufferManager) (d : DeviceState)
    (name : Nat) : BufferManager × DeviceState :=
  match alistLookup bm.buffers name with
  | some h => (bm, d.destroy_buffer h)
  | none => (bm, d)

/-- `BufferManager::free_uniform_buffers`: frees every buffer in the list for
the name and clears the list (the map entry remains, holding `[]`). -/
def BufferManager.free_uniform_buffers (bm : BufferManager) (d : DeviceState)
    (name : Nat) : BufferManager × DeviceState :=
  match alistLookup bm.uniform_buffers name with
  | some l =>
    ({ bm with uniform_buffers := alistUpdate bm.uniform_buffers name [] },
      l.foldl DeviceState.destroy_buffer d)
  | none => (bm, d)

/-- Destination-handle resolution inside `copy_data_to_buffer_with_size`
(the `match buffer_type` block computing `buffer_pair`). -/
def BufferManager.resolve_copy_destination (bm : BufferManager) :
    BufferManagerCopyType → Except String Nat
  | BufferManagerCopyType.TempBuffer =>
    match bm.temp_buffer with
    | some h => Except.ok h
    | none => Except.error "Temp buffer not allocated."
  | BufferManagerCopyType.StandardBuffer name =>
    match alistLookup bm.buffers name with
    | some h => Except.ok h
    | none => Except.error "buffer not allocated."
  | BufferManagerCopyType.UniformBuffers name i =>
    match alistLookup bm.uniform_buffers name with
    | some l =>
      match l.get? i with
      | some h => Except.ok h
      | none => Except.error "index does not exist."
    | none => Except.error "buffer not allocated."

/-- `BufferManager::copy_data_to_buffer_with_size`: rejects a source equal to
the destination (variant-kind comparison) before touching the device, then
resolves the destination, then performs the copy — `map_memory` plus a host
copy for raw `Data`, or `unmap_memory` on the source plus a device-side
`copy_buffer` for a buffer source.  Returns the device state reached together
with the outcome. -/
def BufferManager.copy_data_to_buffer_with_size (bm : BufferManager) (d : DeviceState)
    (data : BufferManagerDataType) (buffer_type : BufferManagerCopyType) (size : Nat) :
    DeviceState × Except String Unit :=
  if data_eq_copy_type data buffer_type then
    (d, Except.error "`data` and `buffer_type` are the same.")
  else
    match bm.resolve_copy_destination buffer_type with
    | Except.error e => (d, Except.error e)
    | Except.ok dst =>
      match data with
      | BufferManagerDataType.Data _ =>
        ({ d with trace := d.trace ++ [DeviceCall.mapMemory dst] }, Except.ok ())
      | BufferManagerDataType.TempBuffer =>
        match bm.temp_buffer with
        | none => (d, Except.error "Temp buffer not allocated.")
        | some src =>
          ({ d with trace := d.trace ++ [DeviceCall.unmapMemory src, DeviceCall.copyBuffer src dst] },
            Except.ok ())
      | BufferManagerDataType.StandardBuffer name =>
        match alistLookup bm.buffers name with
        | none => (d, Except.error "is not allocated.")
        | some src =>
          ({ d with trace := d.trace ++ [DeviceCall.unmapMemory src, DeviceCall.copyBuffer src dst] },
            Except.ok ())
      | BufferManagerDataType.UniformBuffers name index =>
        match alistLookup bm.uniform_buffers name with
        | none => (d, Except.error "is not allocated.")
        | some l =>
          match l.get? index with
          | none => (d, Except.error "index does not exist.")
          | some src =>
            ({ d with trace := d.trace ++ [DeviceCall.unmapMemory src, DeviceCall.copyBuffer src dst] },
              Except.ok ())

theorem alistLookup_append_some {α : Type} (l1 l2 : List (Nat × α)) (k : Nat) (v : α)
    (h : alistLookup l1 k = some v) : alistLookup (l1 ++ l2) k = some v := by
  induction l1 with
  | nil => simp [alistLookup] at h
  | cons a rest ih =>
    obtain ⟨k1, v1⟩ := a
    by_cases hk : k1 = k
    · simp [alistLookup, hk] at h ⊢
      exact h
    · simp [alistLookup, hk] at h ⊢
      exact ih h

theorem alistLookup_append_none {α : Type} (l1 l2 : List (Nat × α)) (k : Nat)
    (h : alistLookup l1 k = none) : alistLookup (l1 ++ l2) k = alistLookup l2 k := by
  induction l1 with
  | nil => simp [alistLookup]
  | cons a rest ih =>
    obtain ⟨k1, v1⟩ := a
    by_cases hk : k1 = k
    · simp [alistLookup, hk] at h
    · simp [alistLookup, hk] at h ⊢
      exact ih h

theorem alistLookup_append_self {α : Type} (l : List (Nat × α)) (k : Nat) (v : α)
    (h : alistLookup l k = none) : alistLookup (l ++ [(k, v)]) k = some v := by
  rw [alistLookup_append_none l _ k h]
  simp [alistLookup]

theorem alistLookup_append_single_ne {α : Type} (l : List (Nat × α)) (t k : Nat) (v : α)
    (h : t ≠ k) : alistLookup (l ++ [(t, v)]) k = alistLookup l k := by
  cases hl : alistLookup l k with
  | some w => exact alistLookup_append_some l _ k w hl
  | none =>
    rw [alistLookup_append_none l _ k hl]
    simp [alistLookup, h]

theorem alistLookup_update_ne {α : Type} (l : List (Nat × α)) (t k : Nat) (v : α)
    (h : t ≠ k) : alistLookup (alistUpdate l t v) k = alistLookup l k := by
  induction l with
  | nil => simp [alistUpdate]
  | cons a rest ih =>
    obtain ⟨k1, v1⟩ := a
    by_cases hk : k1 = t
    · subst hk
      simp [alistUpdate, alistLookup, h]
    · simp [alistUpdate, alistLookup, hk]
      by_cases hk2 : k1 = k
      · simp [hk2]
      · simp [hk2]
        exact ih

theorem alistLookup_update_self {α : Type} (l : List (Nat × α)) (t : Nat) (v old : α)
    (h : alistLookup l t = some old) : alistLookup (alistUpdate l t v) t = some v := by
  induction l with
  | nil => simp [alistLookup] at h
  | cons a rest ih =>
    obtain ⟨k1, v1⟩ := a
    by_cases hk : k1 = t
    · simp [alistUpdate, alistLookup, hk]
    · simp [alistUpdate, alistLookup, hk] at h ⊢
      exact ih h

theorem alistLookup_eq_none_of_not_mem {α : Type} (l : List (Nat × α)) (k : Nat)
    (h : k ∉ l.map Prod.fst) : alistLookup l k = none := by
  induction l with
  | nil => simp [alistLookup]
  | cons a rest ih =>
    obtain ⟨k1, v1⟩ := a
    simp only [List.map_cons, List.mem_cons, not_or] at h
    have hne : ¬ k1 = k := fun hh => h.1 hh.symm
    simp only [alistLookup, if_neg hne]
    exact ih h.2

/-- Claim C4: after `add_resource::<T>(v1)` followed by `add_resource::<T>(v2)`
on a World where T is not yet registered, the World still holds v1 under T and
`get_resource::<T>()` returns v1, never v2 — the second registration is a
no-op, first registration wins. -/
theorem add_resource_first_wins {α : Type} (w : World α) (t : Nat) (v1 v2 : α)
    (h : alistLookup w.resources t = none) :
    ((w.add_resource t v1).add_resource t v2).get_resource t = ECSResult.ok v1 ∧
    alistLookup ((w.add_resource t v1).add_resource t v2).resources t = some v1 := by
  have h1 : alistLookup (w.resources ++ [(t, v1)]) t = some v1 :=
    alistLookup_append_self w.resources t v1 h
  constructor
  · simp [World.add_resource, World.get_resource, World.try_get_resource, h, h1]
  · simp [World.add_resource, h, h1]

/-- Witness for C4 at a concrete input. -/
theorem add_resource_first_wins_witness :
    alistLookup (World.new (α := Nat)).resources 0 = none ∧
    (((World.new (α := Nat)).add_resource 0 1).add_resource 0 2).get_resource 0
      = ECSResult.ok 1 ∧
    alistLookup (((World.new (α := Nat)).add_resource 0 1).add_resource 0 2).resources 0
      = some 1 :=
  ⟨rfl, add_resource_first_wins World.new 0 1 2 rfl⟩

/-- Counterexample for C8 as stated: `get_components` on a type that was never
registered panics (an `unwrap()` of a failed lookup) — the caller never
receives a `NotFound` error value. -/
theorem get_components_unregistered_panics :
    World.get_components (World.new (α := Nat)) 0 = ECSResult.panicked ∧
    World.get_components (World.new (α := Nat)) 0 ≠ ECSResult.notFound := by
  constructor
  · rfl
  · decide

/-- Claim C8 (amended): for a type T never registered, no lookup yields a
guarded view; `try_get_resource` and `try_get_resource_mut` return the
observable `None` error value, while `get_resource`, `get_resource_mut`,
`get_components` and `get_components_mut` panic on the failed lookup instead
of returning an error value. -/
theorem lookup_unregistered_fails {α : Type} (w : World α) (t : Nat)
    (hr : alistLookup w.resources t = none)
    (hc : alistLookup w.components t = none) :
    w.try_get_resource t = ECSResult.notFound ∧
    w.try_get_resource_mut t = ECSResult.notFound ∧
    w.get_resource t = ECSResult.panicked ∧
    w.get_resource_mut t = ECSResult.panicked ∧
    w.get_components t = ECSResult.panicked ∧
    w.get_components_mut t = ECSResult.panicked := by
  simp [World.try_get_resource, World.try_get_resource_mut, World.get_resource,
    World.get_resource_mut, World.get_components, World.get_components_mut, hr, hc]

/-- Witness for the amended C8 at a concrete input. -/
theorem lookup_unregistered_fails_witness :
    (World.new (α := Nat)).try_get_resource 3 = ECSResult.notFound ∧
    (World.new (α := Nat)).try_get_resource_mut 3 = ECSResult.notFound ∧
    (World.new (α := Nat)).get_resource 3 = ECSResult.panicked ∧
    (World.new (α := Nat)).get_resource_mut 3 = ECSResult.panicked ∧
    (World.new (α := Nat)).get_components 3 = ECSResult.panicked ∧
    (World.new (α := Nat)).get_components_mut 3 = ECSResult.panicked :=
  lookup_unregistered_fails World.new 3 rfl rfl

/-- Claim C6: copying from source `StandardBuffer(X)` to destination
`StandardBuffer(X)` fails with the same-buffer error and performs no device
call at all — the device state returned is exactly the input state, for every
manager, device state, name and size. -/
theorem copy_same_standard_rejected (bm : BufferManager) (d : DeviceState)
    (X size : Nat) :
    bm.copy_data_to_buffer_with_size d (BufferManagerDataType.StandardBuffer X)
      (BufferManagerCopyType.StandardBuffer X) size
      = (d, Except.error "`data` and `buffer_type` are the same.") := by
  rfl

/-- Claim C10: the self-copy check compares only the variant kinds, not names
or indices: a Standard-to-Standard copy is rejected even for two distinct
names X and Y, and every Uniform-to-Uniform copy is rejected for all name and
index pairs, in both cases before any device call. -/
theorem copy_check_ignores_names (bm : BufferManager) (d : DeviceState)
    (X Y : Nat) (hXY : X ≠ Y) (size : Nat) :
    bm.copy_data_to_buffer_with_size d (BufferManagerDataType.StandardBuffer X)
      (BufferManagerCopyType.StandardBuffer Y) size
      = (d, Except.error "`data` and `buffer_type` are the same.") ∧
    ∀ u1 u2 i1 i2 size2 : Nat,
      bm.copy_data_to_buffer_with_size d (BufferManagerDataType.UniformBuffers u1 i1)
        (BufferManagerCopyType.UniformBuffers u2 i2) size2
        = (d, Except.error "`data` and `buffer_type` are the same.") := by
  exact ⟨rfl, fun _ _ _ _ _ => rfl⟩

/-- Witness for C10 at concrete distinct names. -/
theorem copy_check_ignores_names_witness :
    (0 : Nat) ≠ 1 ∧
    BufferManager.new.copy_data_to_buffer_with_size DeviceState.fresh
      (BufferManagerDataType.StandardBuffer 0) (BufferManagerCopyType.StandardBuffer 1) 4
      = (DeviceState.fresh, Except.error "`data` and `buffer_type` are the same.") ∧
    BufferManager.new.copy_data_to_buffer_with_size DeviceState.fresh
      (BufferManagerDataType.UniformBuffers 2 0) (BufferManagerCopyType.UniformBuffers 3 1) 4
      = (DeviceState.fresh, Except.error "`data` and `buffer_type` are the same.") :=
  ⟨by decide,
    (copy_check_ignores_names BufferManager.new DeviceState.fresh 0 1 (by decide) 4).1,
    (copy_check_ignores_names BufferManager.new DeviceState.fresh 0 1 (by decide) 4).2 2 3 0 1 4⟩

/-- Claim C1: allocating into an occupied slot frees the old buffer.  After
allocating `Standard{X}` twice in succession from a fresh manager and device,
the destroy count equals the create count minus one and the destroyed handle
is exactly the first buffer; allocating `Temp` twice without an intervening
free likewise destroys the first temp buffer instead of leaking it. -/
theorem allocate_replacement_no_leak (X s1 s2 s3 s4 : Nat) :
    (let r1 := BufferManager.new.allocate_buffer_with_size DeviceState.fresh
        (AllocateBufferType.Standard X) s1
     let r2 := r1.1.allocate_buffer_with_size r1.2 (AllocateBufferType.Standard X) s2
     r2.2.destroy_count = r2.2.create_count - 1 ∧
     r2.2.trace = [DeviceCall.createBuffer 0, DeviceCall.createBuffer 1,
       DeviceCall.destroyBuffer 0]) ∧
    (let t1 := BufferManager.new.allocate_buffer_with_size DeviceState.fresh
        AllocateBufferType.Temp s3
     let t2 := t1.1.allocate_buffer_with_size t1.2 AllocateBufferType.Temp s4
     t2.2.destroy_count = t2.2.create_count - 1 ∧
     t2.2.trace = [DeviceCall.createBuffer 0, DeviceCall.createBuffer 1,
       DeviceCall.destroyBuffer 0]) := by
  simp [BufferManager.allocate_buffer_with_size, BufferManager.new, DeviceState.fresh,
    DeviceState.create_buffer, DeviceState.destroy_buffer, BufferManager.free_temp_buffer,
    alistLookup, alistUpdate, DeviceState.destroy_count, DeviceState.create_count]

/-- Claim C2, evaluated at the failing input: allocate `Standard{0}` (handle 0),
call `free_standard_buffer(0)` (handle 0 destroyed), then allocate `Standard{0}`
again.  Because `free_standard_buffer` leaves the stale entry in the map, the
second allocation frees handle 0 a second time: the trace destroys handle 0
twice, instead of the re-allocation behaving as a first allocation. -/
theorem free_then_reallocate_double_frees :
    (let a := BufferManager.new.allocate_buffer_with_size DeviceState.fresh
        (AllocateBufferType.Standard 0) 16
     let f := a.1.free_standard_buffer a.2 0
     let b := f.1.allocate_buffer_with_size f.2 (AllocateBufferType.Standard 0) 16
     b.2.trace = [DeviceCall.createBuffer 0, DeviceCall.destroyBuffer 0,
       DeviceCall.createBuffer 1, DeviceCall.destroyBuffer 0] ∧
     b.2.trace.countP (fun c => c = DeviceCall.destroyBuffer 0) = 2) := by
  decide

/-- Claim C3: with handlers `[h1, h2, h3]` registered for kind K where h2
fails on the raised payload, raising K and draining the bus runs h1, runs h2
which fails, never runs h3 (the trace is exactly `[h1.id, h2.id]`), and the
error of h2 propagates out of `check_events`. -/
theorem event_dispatch_fail_fast {α : Type} (m : Manager α) (K data : Nat)
    (h1 h2 h3 : EventHandler) (e : String)
    (hsys : m.event_systems = [(K, SystemOrder.mk [h1, h2, h3])])
    (hq : m.world.new_events = [(K, data)])
    (hok : h1.run data = Except.ok ())
    (herr : h2.run data = Except.error e) :
    m.check_events = ([h1.id, h2.id], Except.error e) := by
  simp [Manager.check_events, hq, dispatch_events, Manager.raise_event, hsys,
    alistLookup, run_handlers, hok, herr]

/-- Witness for C3 at a concrete manager. -/
theorem event_dispatch_fail_fast_witness :
    Manager.check_events
      (⟨⟨[], [], [(5, 7)]⟩, ⟨[]⟩, ⟨[]⟩, ⟨[]⟩,
        [(5, ⟨[⟨1, fun _ => Except.ok ()⟩, ⟨2, fun _ => Except.error "boom"⟩,
          ⟨3, fun _ => Except.ok ()⟩]⟩)]⟩ : Manager Nat)
      = ([1, 2], Except.error "boom") :=
  event_dispatch_fail_fast _ 5 7
    ⟨1, fun _ => Except.ok ()⟩ ⟨2, fun _ => Except.error "boom"⟩
    ⟨3, fun _ => Except.ok ()⟩ "boom" rfl rfl rfl rfl

/-- Claim C7: `SystemOrder::new(f1).after(f2).after(f3)` has underlying order
`[f1, f2, f3]` — `.after` appends to the literal end — and executing that
order the way the `Manager::run` loop does invokes f1, f2, f3 in exactly that
order, exactly once each. -/
theorem system_order_after_runs_in_order (f1 f2 f3 : SystemModel)
    (hr1 : f1.result = Except.ok ()) (hr2 : f2.result = Except.ok ())
    (hr3 : f3.result = Except.ok ()) :
    ((SystemOrder.new f1).after f2 |>.after f3).order = [f1, f2, f3] ∧
    run_systems ((SystemOrder.new f1).after f2 |>.after f3).order
      = ([f1.id, f2.id, f3.id], Except.ok ()) := by
  constructor
  · rfl
  · simp [SystemOrder.new, SystemOrder.after, run_systems, hr1, hr2, hr3]

/-- Witness for C7 at concrete systems. -/
theorem system_order_after_runs_in_order_witness :
    ((SystemOrder.new ⟨1, Except.ok ()⟩).after ⟨2, Except.ok ()⟩
        |>.after (⟨3, Except.ok ()⟩ : SystemModel)).order
      = [⟨1, Except.ok ()⟩, ⟨2, Except.ok ()⟩, ⟨3, Except.ok ()⟩] ∧
    run_systems ((SystemOrder.new ⟨1, Except.ok ()⟩).after ⟨2, Except.ok ()⟩
        |>.after (⟨3, Except.ok ()⟩ : SystemModel)).order
      = ([1, 2, 3], Except.ok ()) :=
  system_order_after_runs_in_order ⟨1, Except.ok ()⟩ ⟨2, Except.ok ()⟩
    ⟨3, Except.ok ()⟩ rfl rfl rfl

/-- Claim C9: `Manager::integrate` never merges the startup systems of the
PartialManager — on success the startup systems of the result are exactly
those of the target Manager, while the per-frame and winit-event systems and
the event handlers are merged. -/
theorem integrate_discards_partial_startup {α : Type} (m : Manager α)
    (p : PartialManager α) (m2 : Manager α) (h : m.integrate p = Except.ok m2) :
    m2.startup_systems = m.startup_systems ∧
    m2.systems = m.systems.extend p.systems ∧
    m2.winit_event_systems = m.winit_event_systems.extend p.winit_event_systems ∧
    m2.event_systems = merge_event_systems m.event_systems p.event_systems := by
  simp only [Manager.integrate] at h
  cases hres : integrate_resources m.world.resources p.resources with
  | error e =>
    rw [hres] at h
    simp at h
  | ok res =>
    rw [hres] at h
    simp only [Except.ok.injEq] at h
    subst h
    exact ⟨rfl, rfl, rfl, rfl⟩

/-- Witness for C9: integrating a partial that carries only a startup system
leaves the target manager unchanged. -/
theorem integrate_discards_partial_startup_witness :
    Manager.integrate (Manager.new (α := Nat))
        (⟨[], [], ⟨[⟨9, Except.ok ()⟩]⟩, ⟨[]⟩, ⟨[]⟩, []⟩ : PartialManager Nat)
      = Except.ok (Manager.new (α := Nat)) ∧
    ((Manager.new (α := Nat)).startup_systems
        = (Manager.new (α := Nat)).startup_systems ∧
      (Manager.new (α := Nat)).systems
        = (Manager.new (α := Nat)).systems.extend
            (⟨[], [], ⟨[⟨9, Except.ok ()⟩]⟩, ⟨[]⟩, ⟨[]⟩, []⟩ : PartialManager Nat).systems ∧
      (Manager.new (α := Nat)).winit_event_systems
        = (Manager.new (α := Nat)).winit_event_systems.extend
            (⟨[], [], ⟨[⟨9, Except.ok ()⟩]⟩, ⟨[]⟩, ⟨[]⟩, []⟩ : PartialManager Nat).winit_event_systems ∧
      (Manager.new (α := Nat)).event_systems
        = merge_event_systems (Manager.new (α := Nat)).event_systems
            (⟨[], [], ⟨[⟨9, Except.ok ()⟩]⟩, ⟨[]⟩, ⟨[]⟩, []⟩ : PartialManager Nat).event_systems) :=
  ⟨rfl, integrate_discards_partial_startup (Manager.new (α := Nat))
    (⟨[], [], ⟨[⟨9, Except.ok ()⟩]⟩, ⟨[]⟩, ⟨[]⟩, []⟩ : PartialManager Nat)
    (Manager.new (α := Nat)) rfl⟩

theorem integrate_resources_conflict {α : Type} :
    ∀ (p target : List (Nat × α)) (k : Nat), k ∈ p.map Prod.fst →
      (alistLookup target k).isSome →
      ∃ e, integrate_resources target p = Except.error e := by
  intro p
  induction p with
  | nil =>
    intro target k hk
    simp at hk
  | cons a rest ih =>
    intro target k hk hsome
    obtain ⟨t, v⟩ := a
    cases hc : alistLookup target t with
    | some w =>
      exact ⟨"Resource from PartialManager world exists in world already.",
        by simp [integrate_resources, hc]⟩
    | none =>
      have hkt : k ≠ t := by
        intro hkk
        subst hkk
        rw [hc] at hsome
        simp at hsome
      have hk2 : k ∈ rest.map Prod.fst := by
        simp only [List.map_cons, List.mem_cons] at hk
        rcases hk with hh | hh
        · exact absurd hh hkt
        · exact hh
      obtain ⟨w, hw⟩ := Option.isSome_iff_exists.mp hsome
      have hsome2 : (alistLookup (target ++ [(t, v)]) k).isSome := by
        rw [alistLookup_append_some target _ k w hw]
        rfl
      have hrec := ih (target ++ [(t, v)]) k hk2 hsome2
      simpa [integrate_resources, hc] using hrec

theorem integrate_resources_success {α : Type} :
    ∀ (p target : List (Nat × α)), (p.map Prod.fst).Nodup →
      (∀ k ∈ p.map Prod.fst, alistLookup target k = none) →
      ∃ res, integrate_resources target p = Except.ok res := by
  intro p
  induction p with
  | nil =>
    intro target _ _
    exact ⟨target, rfl⟩
  | cons a rest ih =>
    intro target hnd hnone
    obtain ⟨t, v⟩ := a
    have ht : alistLookup target t = none := hnone t (by simp)
    simp only [List.map_cons, List.nodup_cons] at hnd
    have hnone2 : ∀ k ∈ rest.map Prod.fst, alistLookup (target ++ [(t, v)]) k = none := by
      intro k hk
      have hkt : t ≠ k := fun hh => hnd.1 (hh ▸ hk)
      rw [alistLookup_append_single_ne target t k v hkt]
      exact hnone k (by simp [hk])
    obtain ⟨res, hres⟩ := ih (target ++ [(t, v)]) hnd.2 hnone2
    exact ⟨res, by simp [integrate_resources, ht, hres]⟩

theorem merge_components_lookup_none {α : Type} :
    ∀ (pc tc : List (Nat × List α)) (k : Nat), alistLookup pc k = none →
      alistLookup (merge_components tc pc) k = alistLookup tc k := by
  intro pc
  induction pc with
  | nil =>
    intro tc k _
    rfl
  | cons a rest ih =>
    intro tc k hk
    obtain ⟨t, vs⟩ := a
    have hkt : ¬ t = k := by
      intro hh
      simp [alistLookup, hh] at hk
    have hrest : alistLookup rest k = none := by
      simpa [alistLookup, hkt] using hk
    cases htc : alistLookup tc t with
    | some l =>
      have := ih (alistUpdate tc t (l ++ vs)) k hrest
      rw [alistLookup_update_ne tc t k (l ++ vs) hkt] at this
      simpa [merge_components, htc] using this
    | none =>
      have := ih (tc ++ [(t, vs)]) k hrest
      rw [alistLookup_append_single_ne tc t k vs hkt] at this
      simpa [merge_components, htc] using this

theorem merge_components_lookup_some {α : Type} :
    ∀ (pc tc : List (Nat × List α)) (k : Nat) (vs : List α),
      (pc.map Prod.fst).Nodup → alistLookup pc k = some vs →
      alistLookup (merge_components tc pc) k
        = some ((alistLookup tc k).getD [] ++ vs) := by
  intro pc
  induction pc with
  | nil =>
    intro tc k vs _ hk
    simp [alistLookup] at hk
  | cons a rest ih =>
    intro tc k vs hnd hk
    obtain ⟨t, vs0⟩ := a
    simp only [List.map_cons, List.nodup_cons] at hnd
    by_cases hkt : t = k
    · subst hkt
      have hvs : vs0 = vs := by
        simpa [alistLookup] using hk
      subst hvs
      have hrest : alistLookup rest t = none :=
        alistLookup_eq_none_of_not_mem rest t hnd.1
      cases htc : alistLookup tc t with
      | some l =>
        have := merge_components_lookup_none rest (alistUpdate tc t (l ++ vs0)) t hrest
        rw [alistLookup_update_self tc t (l ++ vs0) l htc] at this
        simpa [merge_components, htc] using this
      | none =>
        have := merge_components_lookup_none rest (tc ++ [(t, vs0)]) t hrest
        rw [alistLookup_append_self tc t vs0 htc] at this
        simpa [merge_components, htc] using this
    · have hrest : alistLookup rest k = some vs := by
        simpa [alistLookup, hkt] using hk
      cases htc : alistLookup tc t with
      | some l =>
        have := ih (alistUpdate tc t (l ++ vs0)) k vs hnd.2 hrest
        rw [alistLookup_update_ne tc t k (l ++ vs0) hkt] at this
        simpa [merge_components, htc] using this
      | none =>
        have := ih (tc ++ [(t, vs0)]) k vs hnd.2 hrest
        rw [alistLookup_append_single_ne tc t k vs0 hkt] at this
        simpa [merge_components, htc] using this

/-- Claim C5: `integrate` merges asymmetrically.  It fails with a hard error
whenever the partial carries a resource of a type the World already has; when
no resource type conflicts it succeeds and, per component type, the partial
component list is concatenated onto the end of the existing list (so
integrating a partial adding `[20]` under a key holding `[10]` yields
`[10, 20]`), other keys being untouched. -/
theorem integrate_merge_asymmetry {α : Type} (m : Manager α) (p : PartialManager α)
    (hndr : (p.resources.map Prod.fst).Nodup)
    (hndc : (p.components.map Prod.fst).Nodup) :
    ((∃ k, k ∈ p.resources.map Prod.fst ∧ (alistLookup m.world.resources k).isSome) →
      ∃ e, m.integrate p = Except.error e) ∧
    ((∀ k ∈ p.resources.map Prod.fst, alistLookup m.world.resources k = none) →
      ∃ m2, m.integrate p = Except.ok m2 ∧
        (∀ k vs, alistLookup p.components k = some vs →
          alistLookup m2.world.components k
            = some ((alistLookup m.world.components k).getD [] ++ vs)) ∧
        (∀ k, alistLookup p.components k = none →
          alistLookup m2.world.components k = alistLookup m.world.components k)) := by
  constructor
  · rintro ⟨k, hk, hsome⟩
    obtain ⟨e, he⟩ := integrate_resources_conflict p.resources m.world.resources k hk hsome
    exact ⟨e, by simp [Manager.integrate, he]⟩
  · intro hnone
    obtain ⟨res, hres⟩ := integrate_resources_success p.resources m.world.resources hndr hnone
    refine ⟨{ world := { m.world with
                         resources := res,
                         components := merge_components m.world.components p.components },
              startup_systems := m.startup_systems,
              systems := m.systems.extend p.systems,
              winit_event_systems := m.winit_event_systems.extend p.winit_event_systems,
              event_systems := merge_event_systems m.event_systems p.event_systems },
      ?_, ?_, ?_⟩
    · simp [Manager.integrate, hres]
    · intro k vs hvs
      simpa using merge_components_lookup_some p.components m.world.components k vs hndc hvs
    · intro k hk
      simpa using merge_components_lookup_none p.components m.world.components k hk

/-- Witness for C5: integrating a partial holding component `[20]` under key 0
into a manager holding `[10]` under key 0 yields `[10, 20]`. -/
theorem integrate_merge_asymmetry_witness :
    Manager.integrate
        (⟨⟨[], [(0, [10])], []⟩, ⟨[]⟩, ⟨[]⟩, ⟨[]⟩, []⟩ : Manager Nat)
        (⟨[], [(0, [20])], ⟨[]⟩, ⟨[]⟩, ⟨[]⟩, []⟩ : PartialManager Nat)
      = Except.ok (⟨⟨[], [(0, [10, 20])], []⟩, ⟨[]⟩, ⟨[]⟩, ⟨[]⟩, []⟩ : Manager Nat) ∧
    alistLookup
        ((⟨⟨[], [(0, [10, 20])], []⟩, ⟨[]⟩, ⟨[]⟩, ⟨[]⟩, []⟩ : Manager Nat)).world.components 0
      = some [10, 20] := by
  have h := integrate_merge_asymmetry
      (⟨⟨[], [(0, [10])], []⟩, ⟨[]⟩, ⟨[]⟩, ⟨[]⟩, []⟩ : Manager Nat)
      (⟨[], [(0, [20])], ⟨[]⟩, ⟨[]⟩, ⟨[]⟩, []⟩ : PartialManager Nat)
      (by simp) (by simp)
  obtain ⟨m2, hm2, hsome, -⟩ := h.2 (by simp)
  have h2 := hm2
  rw [show Manager.integrate
      (⟨⟨[], [(0, [10])], []⟩, ⟨[]⟩, ⟨[]⟩, ⟨[]⟩, []⟩ : Manager Nat)
      (⟨[], [(0, [20])], ⟨[]⟩, ⟨[]⟩, ⟨[]⟩, []⟩ : PartialManager Nat)
      = Except.ok (⟨⟨[], [(0, [10, 20])], []⟩, ⟨[]⟩, ⟨[]⟩, ⟨[]⟩, []⟩ : Manager Nat)
    from rfl] at h2
  simp only [Except.ok.injEq] at h2
  subst h2
  refine ⟨hm2, ?_⟩
  have hval := hsome 0 [20] rfl
  simp [alistLookup] at hval
  simp [alistLookup, hval]

end Gristmill
